import Mathlib

/-!
Verification of the Alpaca trading MVP core pipeline:
signal generation (`strategy/moving_average.py`), risk vetting
(`risk/risk_engine.py`) and order execution (`execution/executor.py`).

Python floats are modelled as exact rationals (ℚ); `round(x, n)` is
modelled as round-half-to-even at `n` decimal digits, matching Python's
semantics on exact values.  Pandas rolling means are modelled as
`Option ℚ`: `none` stands for NaN (a window that is not yet full), and
all comparisons against `none` are `false`, matching IEEE NaN comparison
semantics used by pandas/NumPy.  Wall-clock timestamps stamped on
results are omitted from the model (they carry no decision logic); the
current UTC date used by `count_today_filled_trades` is passed as an
explicit parameter.
-/

namespace Alpaca

/-- Round-half-to-even to the nearest integer, as Python's `round` does. -/
def rhe (q : ℚ) : ℤ :=
  if q - ⌊q⌋ < 1/2 then ⌊q⌋
  else if 1/2 < q - ⌊q⌋ then ⌊q⌋ + 1
  else if ⌊q⌋ % 2 = 0 then ⌊q⌋ else ⌊q⌋ + 1

/-- Python's `round(x, n)` on exact values: round-half-to-even at `n`
decimal digits. -/
def pyRound (q : ℚ) (n : ℕ) : ℚ :=
  (rhe (q * 10 ^ n) : ℚ) / 10 ^ n

/-- Trailing simple moving average of window `w` ending at index `i`
(0-based), as produced by `df["Close"].rolling(window=w).mean()` at row
`i`: `none` (NaN) while fewer than `w` rows exist. -/
def smaAt (w : ℕ) (closes : List ℚ) (i : ℕ) : Option ℚ :=
  if 1 ≤ w ∧ w ≤ i + 1 ∧ i < closes.length then
    some (((closes.take (i + 1)).drop (i + 1 - w)).sum / w)
  else
    none

/-- `a <= b` under NaN semantics: false when either side is NaN. -/
def optLe : Option ℚ → Option ℚ → Bool
  | some a, some b => a ≤ b
  | _, _ => false

/-- `a >= b` under NaN semantics: false when either side is NaN. -/
def optGe : Option ℚ → Option ℚ → Bool
  | some a, some b => b ≤ a
  | _, _ => false

/-- `a < b` under NaN semantics: false when either side is NaN. -/
def optLt : Option ℚ → Option ℚ → Bool
  | some a, some b => a < b
  | _, _ => false

/-- `a > b` under NaN semantics: false when either side is NaN. -/
def optGt : Option ℚ → Option ℚ → Bool
  | some a, some b => b < a
  | _, _ => false

/-- `StrategySignal` from `strategy/moving_average.py` (the wall-clock
`timestamp` field is omitted from the model). -/
structure StrategySignal where
  symbol : String
  signal : String
  confidence : ℚ
  deriving Repr, DecidableEq

/-- The relative spread `abs(curr_short - curr_long) / curr_long if
curr_long else 0.0` computed by `generate_signal` on the last bar. -/
def spreadOf (shortW longW : ℕ) (closes : List ℚ) : ℚ :=
  match smaAt shortW closes (closes.length - 1),
        smaAt longW closes (closes.length - 1) with
  | some s, some l => if l = 0 then 0 else |s - l| / l
  | _, _ => 0

/-- `MovingAverageCrossoverStrategy.generate_signal`: raising
`ValueError("Insufficient data for long SMA window")` is modelled as
`Except.error` with that message. -/
def generate_signal (shortW longW : ℕ) (symbol : String) (closes : List ℚ) :
    Except String StrategySignal :=
  if closes.length < longW then
    .error "Insufficient data for long SMA window"
  else
    let n := closes.length
    let prev_short := smaAt shortW closes (n - 2)
    let prev_long := smaAt longW closes (n - 2)
    let curr_short := smaAt shortW closes (n - 1)
    let curr_long := smaAt longW closes (n - 1)
    let signal :=
      if optLe prev_short prev_long && optGt curr_short curr_long then "BUY"
      else if optGe prev_short prev_long && optLt curr_short curr_long then "SELL"
      else "HOLD"
    let spread := spreadOf shortW longW closes
    let confidence :=
      if signal ≠ "HOLD" then min (99/100 : ℚ) (pyRound (1/2 + spread * 10) 2)
      else 1/2
    .ok ⟨symbol, signal, confidence⟩

/-- `MovingAverageCrossoverStrategy.__init__`: the constructor raises
`ValueError("short_window must be < long_window")` when
`short_window >= long_window`; success returns the configured windows. -/
def mkStrategy (short_window long_window : ℤ) : Except String (ℤ × ℤ) :=
  if short_window ≥ long_window then
    .error "short_window must be < long_window"
  else
    .ok (short_window, long_window)

/-- `RiskDecision` from `risk/risk_engine.py`. -/
structure RiskDecision where
  approved : Bool
  reason : String
  max_position_value : ℚ
  stop_loss_pct : ℚ
  deriving Repr, DecidableEq

/-- `RiskEngine` configuration fields. -/
structure RiskEngine where
  max_capital_per_position : ℚ
  max_trades_per_day : ℤ
  stop_loss_pct : ℚ
  max_daily_loss_pct : ℚ
  deriving Repr, DecidableEq

/-- `RiskEngine.evaluate`, translated clause by clause from
`risk/risk_engine.py`. -/
def RiskEngine.evaluate (e : RiskEngine) (signal : String) (equity : ℚ)
    (today_trades : ℤ) (daily_pnl : ℚ) : RiskDecision :=
  if signal = "HOLD" then
    ⟨false, "Signal is HOLD", 0, e.stop_loss_pct⟩
  else if today_trades ≥ e.max_trades_per_day then
    ⟨false, "Daily trade limit reached", 0, e.stop_loss_pct⟩
  else
    let daily_loss := |min daily_pnl 0|
    if 0 < equity ∧ daily_loss / equity > e.max_daily_loss_pct then
      ⟨false, "Daily loss limit exceeded", 0, e.stop_loss_pct⟩
    else
      let max_position_value := equity * e.max_capital_per_position
      if max_position_value ≤ 0 then
        ⟨false, "Invalid position sizing from equity", 0, e.stop_loss_pct⟩
      else
        ⟨true, "Approved", max_position_value, e.stop_loss_pct⟩

/-- An order record as consumed by `count_today_filled_trades`:
`filled_at` is `None` or a fill timestamp, of which only the UTC date
(modelled as an integer day number) matters here. -/
structure OrderRecord where
  filled_at : Option ℤ
  deriving Repr, DecidableEq

/-- `RiskEngine.count_today_filled_trades`: the loop over broker orders,
with the current UTC date passed explicitly. -/
def count_today_filled_trades (today : ℤ) : List OrderRecord → ℤ
  | [] => 0
  | o :: rest =>
    (match o.filled_at with
     | some d => if d = today then 1 else 0
     | none => 0) + count_today_filled_trades today rest

/-- `ExecutionResult` from `execution/executor.py`. -/
structure ExecutionResult where
  executed : Bool
  reason : String
  qty : ℚ
  order_id : Option String := none
  deriving Repr, DecidableEq

/-- Outcome of `broker.submit_order`: either an order object (whose
`str(getattr(order, "id", None))` is the `id` field) or an exception
with message `String`. -/
def Broker := String → ℚ → String → Except String String

/-- `TradeExecutor.execute`, translated clause by clause from
`execution/executor.py`; the broker collaborator is passed as a
function so that both success and failure of `submit_order` are
covered. -/
def execute (broker : Broker) (signal : StrategySignal)
    (risk_decision : RiskDecision) (last_price : ℚ) : ExecutionResult :=
  if ¬ risk_decision.approved then
    ⟨false, risk_decision.reason, 0, none⟩
  else if signal.signal ≠ "BUY" ∧ signal.signal ≠ "SELL" then
    ⟨false, "Unsupported signal " ++ signal.signal, 0, none⟩
  else if last_price ≤ 0 then
    ⟨false, "Invalid market price", 0, none⟩
  else
    let qty := pyRound (risk_decision.max_position_value / last_price) 4
    if qty ≤ 0 then
      ⟨false, "Calculated quantity is zero", 0, none⟩
    else
      match broker signal.symbol qty signal.signal with
      | .ok orderId => ⟨true, "Order submitted", qty, some orderId⟩
      | .error exc => ⟨false, exc, qty, none⟩

/-- One cycle of `main.run` restricted to the core pipeline: generate a
signal from the price history, evaluate risk, execute.  An error raised
by `generate_signal` propagates and aborts the cycle before the risk and
execution stages (modelled by `Except.bind` short-circuiting). -/
def runCycle (shortW longW : ℕ) (e : RiskEngine) (broker : Broker)
    (symbol : String) (closes : List ℚ) (equity : ℚ) (today_trades : ℤ)
    (daily_pnl : ℚ) : Except String ExecutionResult := do
  let signal ← generate_signal shortW longW symbol closes
  let risk_decision := e.evaluate signal.signal equity today_trades daily_pnl
  let last_price := closes.getLast?.getD 0
  return execute broker signal risk_decision last_price

/-- The upward-crossover test of the spec, over the SMA values of the
last two bars (NaN comparisons are false). -/
def buyCond (shortW longW : ℕ) (closes : List ℚ) : Bool :=
  optLe (smaAt shortW closes (closes.length - 2)) (smaAt longW closes (closes.length - 2)) &&
  optGt (smaAt shortW closes (closes.length - 1)) (smaAt longW closes (closes.length - 1))

/-- The downward-crossover test of the spec, over the SMA values of the
last two bars (NaN comparisons are false). -/
def sellCond (shortW longW : ℕ) (closes : List ℚ) : Bool :=
  optGe (smaAt shortW closes (closes.length - 2)) (smaAt longW closes (closes.length - 2)) &&
  optLt (smaAt shortW closes (closes.length - 1)) (smaAt longW closes (closes.length - 1))

/-- `RiskEngine.evaluate` as the claim words it: five rules applied in
this exact order, the first matching rule winning. -/
def evaluateSpec (e : RiskEngine) (signal : String) (equity : ℚ)
    (today_trades : ℤ) (daily_pnl : ℚ) : RiskDecision :=
  if signal = "HOLD" then
    ⟨false, "Signal is HOLD", 0, e.stop_loss_pct⟩
  else if e.max_trades_per_day ≤ today_trades then
    ⟨false, "Daily trade limit reached", 0, e.stop_loss_pct⟩
  else if 0 < equity ∧ e.max_daily_loss_pct < |min daily_pnl 0| / equity then
    ⟨false, "Daily loss limit exceeded", 0, e.stop_loss_pct⟩
  else if equity * e.max_capital_per_position ≤ 0 then
    ⟨false, "Invalid position sizing from equity", 0, e.stop_loss_pct⟩
  else
    ⟨true, "Approved", equity * e.max_capital_per_position, e.stop_loss_pct⟩

/-- `TradeExecutor.execute` as the claim words it: four checks in
order, then submission. -/
def executeSpec (broker : Broker) (signal : StrategySignal)
    (risk_decision : RiskDecision) (last_price : ℚ) : ExecutionResult :=
  if risk_decision.approved = false then
    ⟨false, risk_decision.reason, 0, none⟩
  else if signal.signal ∉ (["BUY", "SELL"] : List String) then
    ⟨false, "Unsupported signal " ++ signal.signal, 0, none⟩
  else if last_price ≤ 0 then
    ⟨false, "Invalid market price", 0, none⟩
  else
    let qty := pyRound (risk_decision.max_position_value / last_price) 4
    if qty ≤ 0 then
      ⟨false, "Calculated quantity is zero", 0, none⟩
    else
      match broker signal.symbol qty signal.signal with
      | .ok orderId => ⟨true, "Order submitted", qty, some orderId⟩
      | .error exc => ⟨false, exc, qty, none⟩

/-! ### Helper lemmas -/

theorem optLe_none (a : Option ℚ) : optLe a none = false := by
  cases a <;> rfl

theorem optGe_none (a : Option ℚ) : optGe a none = false := by
  cases a <;> rfl

theorem le_rhe (q : ℚ) : ⌊q⌋ ≤ rhe q := by
  unfold rhe; split_ifs <;> omega

theorem rhe_le_floor_add_one (q : ℚ) : rhe q ≤ ⌊q⌋ + 1 := by
  unfold rhe; split_ifs <;> omega

theorem rhe_mono {a b : ℚ} (h : a ≤ b) : rhe a ≤ rhe b := by
  rcases lt_or_eq_of_le (Int.floor_le_floor h) with hf | hf
  · calc rhe a ≤ ⌊a⌋ + 1 := rhe_le_floor_add_one a
      _ ≤ ⌊b⌋ := by omega
      _ ≤ rhe b := le_rhe b
  · have hr : a - (⌊b⌋ : ℚ) ≤ b - (⌊b⌋ : ℚ) := by linarith
    unfold rhe
    rw [hf]
    split_ifs <;> first | omega | linarith

theorem pyRound_mono {a b : ℚ} (n : ℕ) (h : a ≤ b) : pyRound a n ≤ pyRound b n := by
  unfold pyRound
  have h10 : (0 : ℚ) < 10 ^ n := by positivity
  have hr := rhe_mono (mul_le_mul_of_nonneg_right h (le_of_lt h10))
  have hr' : ((rhe (a * 10 ^ n) : ℤ) : ℚ) ≤ ((rhe (b * 10 ^ n) : ℤ) : ℚ) := by
    exact_mod_cast hr
  gcongr

theorem rhe_eq_of_lt {q : ℚ} {f : ℤ} (hf : ⌊q⌋ = f) (h : q - f < 1/2) :
    rhe q = f := by
  unfold rhe
  rw [hf, if_pos h]

theorem rhe_eq_of_gt {q : ℚ} {f : ℤ} (hf : ⌊q⌋ = f) (h : 1/2 < q - f) :
    rhe q = f + 1 := by
  unfold rhe
  rw [hf, if_neg (by linarith), if_pos h]

theorem pyRound_half : pyRound (1/2) 2 = 1/2 := by
  unfold pyRound
  have h1 : (1/2 : ℚ) * 10 ^ 2 = 50 := by norm_num
  have hf : ⌊(50 : ℚ)⌋ = 50 := by norm_num
  rw [h1, rhe_eq_of_lt hf (by norm_num)]
  norm_num

theorem pyRound_half_le {q : ℚ} (h : 1/2 ≤ q) : 1/2 ≤ pyRound q 2 := by
  calc (1/2 : ℚ) = pyRound (1/2) 2 := pyRound_half.symm
    _ ≤ pyRound q 2 := pyRound_mono 2 h

theorem not_optGt_and_optLt {a b : Option ℚ} (hg : optGt a b = true)
    (hl : optLt a b = true) : False := by
  cases a with
  | none => simp [optGt] at hg
  | some x =>
    cases b with
    | none => simp [optGt] at hg
    | some y =>
      simp only [optGt, decide_eq_true_eq] at hg
      simp only [optLt, decide_eq_true_eq] at hl
      linarith

/-- Case analysis for the three-way signal selection: the BUY and SELL
guards cannot hold together, so the `elif` chain classifies exactly. -/
theorem signal_select_cases (b s : Bool) (hexcl : b = true → s = true → False)
    (str : String) (hstr : str = if b then "BUY" else if s then "SELL" else "HOLD") :
    (str = "BUY" ↔ b = true) ∧ (str = "SELL" ↔ s = true) ∧
    (str = "HOLD" ↔ (b = false ∧ s = false)) := by
  cases b <;> cases s <;> simp_all

/-! ### Claims -/

/-- C1: `RiskEngine.evaluate` applies its five rules in exactly the
order the spec states, the first matching rule winning, with the exact
reasons, a strict `>` comparator on the daily-loss ratio, and
`max_position_value = equity * max_capital_per_position` on approval. -/
theorem C1_evaluate_rule_order (e : RiskEngine) (signal : String)
    (equity : ℚ) (today_trades : ℤ) (daily_pnl : ℚ) :
    e.evaluate signal equity today_trades daily_pnl =
      evaluateSpec e signal equity today_trades daily_pnl := rfl

/-- C6: the strategy constructor fails exactly when
`short_window >= long_window` and succeeds exactly when
`short_window < long_window`. -/
theorem C6_constructor_validation (s l : ℤ) :
    ((∃ w, mkStrategy s l = .ok w) ↔ s < l) ∧
    (mkStrategy s l = .error "short_window must be < long_window" ↔ l ≤ s) := by
  unfold mkStrategy
  constructor
  · constructor
    · rintro ⟨w, hw⟩
      by_contra hlt
      rw [if_pos (by omega)] at hw
      exact Except.noConfusion hw
    · intro hlt
      exact ⟨(s, l), by rw [if_neg (by omega)]⟩
  · constructor
    · intro hw
      by_contra hle
      rw [if_neg (by omega)] at hw
      exact Except.noConfusion hw
    · intro hle
      rw [if_pos (by omega)]

/-- C9: `count_today_filled_trades` returns exactly the number of
records whose fill timestamp is present and falls on the current UTC
date; records with no fill timestamp are ignored and the empty list
yields 0. -/
theorem C9_count_today_filled (today : ℤ) (orders : List OrderRecord) :
    count_today_filled_trades today orders =
      (orders.countP (fun o => o.filled_at = some today) : ℤ) ∧
    count_today_filled_trades today ([] : List OrderRecord) = 0 := by
  refine ⟨?_, rfl⟩
  induction orders with
  | nil => rfl
  | cons o rest ih =>
    rw [count_today_filled_trades, ih, List.countP_cons]
    cases h : o.filled_at with
    | none => simp [h]
    | some d =>
      by_cases hd : d = today
      · simp only [h, hd, if_pos rfl, decide_eq_true_eq]
        push_cast [List.countP_cons]
        omega
      · simp [h, hd]


/-- C2: for every valid configuration and price history with at least
`long_window` bars, `generate_signal` returns BUY exactly when the
previous short SMA is `<=` the previous long SMA and the current short
SMA is `>` the current long SMA; SELL exactly in the mirrored case; and
HOLD in every other case (comparisons against a not-yet-defined SMA are
false, as for NaN). -/
theorem C2_crossover_rule (shortW longW : ℕ) (sym : String) (closes : List ℚ)
    (hs : 1 ≤ shortW) (hsl : shortW < longW) (hlen : longW ≤ closes.length)
    (sig : StrategySignal)
    (hok : generate_signal shortW longW sym closes = .ok sig) :
    (sig.signal = "BUY" ↔ buyCond shortW longW closes = true) ∧
    (sig.signal = "SELL" ↔ sellCond shortW longW closes = true) ∧
    (sig.signal = "HOLD" ↔
      (buyCond shortW longW closes = false ∧ sellCond shortW longW closes = false)) := by
  unfold generate_signal at hok
  rw [if_neg (by omega)] at hok
  simp only [] at hok
  have h := Except.ok.inj hok
  subst h
  unfold buyCond sellCond
  exact signal_select_cases _ _
    (fun hb hs' => not_optGt_and_optLt
      (Bool.and_elim_right hb) (Bool.and_elim_right hs'))
    _ rfl

/-- C10: with exactly `long_window` bars, the previous bar's long SMA is
undefined (NaN), both crossover comparisons are false, and
`generate_signal` always returns HOLD with confidence 0.5. -/
theorem C10_min_history_holds (shortW longW : ℕ) (sym : String) (closes : List ℚ)
    (hs : 1 ≤ shortW) (hsl : shortW < longW) (hlen : closes.length = longW) :
    generate_signal shortW longW sym closes = .ok ⟨sym, "HOLD", 1/2⟩ := by
  have hnone : smaAt longW closes (closes.length - 2) = none := by
    unfold smaAt
    rw [if_neg (by omega)]
  simp only [generate_signal, hnone, optLe_none, optGe_none, Bool.false_and,
    Bool.and_self]
  rw [if_neg (by omega)]
  simp

/-- C7: `generate_signal` fails with the insufficient-data error exactly
when the history has fewer than `long_window` bars; in that case the
whole cycle aborts with that error before the risk and execution
stages; with at least `long_window` bars this error is not raised. -/
theorem C7_insufficient_data (shortW longW : ℕ) (sym : String) (closes : List ℚ)
    (e : RiskEngine) (broker : Broker) (equity : ℚ) (today_trades : ℤ)
    (daily_pnl : ℚ) :
    (generate_signal shortW longW sym closes =
        .error "Insufficient data for long SMA window" ↔ closes.length < longW) ∧
    (closes.length < longW →
      runCycle shortW longW e broker sym closes equity today_trades daily_pnl =
        .error "Insufficient data for long SMA window") ∧
    (longW ≤ closes.length →
      ∃ sig, generate_signal shortW longW sym closes = .ok sig) := by
  by_cases h : closes.length < longW
  · have hgen : generate_signal shortW longW sym closes =
        .error "Insufficient data for long SMA window" := by
      unfold generate_signal
      rw [if_pos h]
    refine ⟨by simp [hgen, h], fun _ => ?_, fun h' => absurd h' (by omega)⟩
    simp [runCycle, hgen, Except.bind]
  · have hgen : ∃ sig, generate_signal shortW longW sym closes = .ok sig := by
      unfold generate_signal
      rw [if_neg h]
      exact ⟨_, rfl⟩
    obtain ⟨sig, hsig⟩ := hgen
    exact ⟨by simp [hsig, h], fun h' => absurd h' h, fun _ => ⟨sig, hsig⟩⟩

/-- In the submission branch (approved, tradable signal, positive price,
positive quantity), `execute` reports the computed quantity whether or
not the broker call succeeds. -/
theorem execute_qty_submit (broker : Broker) (signal : StrategySignal)
    (rd : RiskDecision) (lp q : ℚ)
    (happr : rd.approved = true)
    (hsig : signal.signal = "BUY" ∨ signal.signal = "SELL")
    (hlp : 0 < lp)
    (hq : pyRound (rd.max_position_value / lp) 4 = q)
    (hqty : 0 < q) :
    (execute broker signal rd lp).qty = q := by
  unfold execute
  rw [if_neg (by simp [happr])]
  rw [if_neg (by rcases hsig with h | h <;> simp [h])]
  rw [if_neg (by linarith)]
  simp only [hq]
  rw [if_neg (by linarith)]
  cases hb : broker signal.symbol q signal.signal <;> simp [hb]

theorem pyRound_5000_100 : pyRound ((5000 : ℚ) / 100) 4 = 50 := by
  unfold pyRound
  rw [show ((5000 : ℚ) / 100) * 10 ^ 4 = 500000 by norm_num]
  rw [rhe_eq_of_lt (show ⌊(500000 : ℚ)⌋ = 500000 by norm_num) (by norm_num)]
  norm_num

/-- C3: `TradeExecutor.execute` applies its four checks in exactly the
spec's order with the spec's reasons and quantities, and with an
approved decision, `max_position_value = 5000` and `last_price = 100`
the computed quantity is 50 (whether or not the broker call succeeds). -/
theorem C3_execute_check_order (broker : Broker) (signal : StrategySignal)
    (rd : RiskDecision) (lp : ℚ) :
    execute broker signal rd lp = executeSpec broker signal rd lp ∧
    ∀ (sym r : String) (c slp : ℚ),
      (execute broker ⟨sym, "BUY", c⟩ ⟨true, r, 5000, slp⟩ 100).qty = 50 := by
  constructor
  · unfold execute executeSpec
    have h2 : (signal.signal ∉ (["BUY", "SELL"] : List String)) =
        (signal.signal ≠ "BUY" ∧ signal.signal ≠ "SELL") := by
      simp [not_or]
    by_cases h1 : rd.approved <;> simp [h1, h2]
  · intro sym r c slp
    exact execute_qty_submit broker ⟨sym, "BUY", c⟩ ⟨true, r, 5000, slp⟩ 100 50
      rfl (Or.inl rfl) (by norm_num) pyRound_5000_100 (by norm_num)

/-- C4: `execute` is a total function into `ExecutionResult` (it never
raises); when the broker's `submit_order` fails with message `exc` at
the attempted quantity, the result is `executed = false`, reason `exc`,
the attempted quantity, and no order identifier. -/
theorem C4_broker_failure_captured (broker : Broker) (signal : StrategySignal)
    (rd : RiskDecision) (lp : ℚ) (exc : String) (qty : ℚ)
    (happr : rd.approved = true)
    (hsig : signal.signal = "BUY" ∨ signal.signal = "SELL")
    (hlp : 0 < lp)
    (hq : pyRound (rd.max_position_value / lp) 4 = qty)
    (hqty : 0 < qty)
    (hb : broker signal.symbol qty signal.signal = .error exc) :
    execute broker signal rd lp = ⟨false, exc, qty, none⟩ := by
  unfold execute
  rw [if_neg (by simp [happr])]
  rw [if_neg (by rcases hsig with h | h <;> simp [h])]
  rw [if_neg (by linarith)]
  simp only [hq]
  rw [if_neg (by linarith)]
  rw [hb]

/-- The confidence reported by `generate_signal`: exactly 0.5 for HOLD,
and `min(0.99, round(0.5 + spread * 10, 2))` for BUY/SELL. -/
theorem confidence_formula (shortW longW : ℕ) (sym : String) (closes : List ℚ)
    (hlen : longW ≤ closes.length) (sig : StrategySignal)
    (hok : generate_signal shortW longW sym closes = .ok sig) :
    (sig.signal = "HOLD" → sig.confidence = 1/2) ∧
    (sig.signal ≠ "HOLD" →
      sig.confidence =
        min (99/100) (pyRound (1/2 + spreadOf shortW longW closes * 10) 2)) := by
  unfold generate_signal at hok
  rw [if_neg (by omega)] at hok
  simp only [] at hok
  have h := Except.ok.inj hok
  subst h
  generalize (optLe (smaAt shortW closes (closes.length - 2))
      (smaAt longW closes (closes.length - 2)) &&
    optGt (smaAt shortW closes (closes.length - 1))
      (smaAt longW closes (closes.length - 1))) = b
  generalize (optGe (smaAt shortW closes (closes.length - 2))
      (smaAt longW closes (closes.length - 2)) &&
    optLt (smaAt shortW closes (closes.length - 1))
      (smaAt longW closes (closes.length - 1))) = s
  cases b <;> cases s <;> simp

theorem smaAt_nonneg {w : ℕ} {closes : List ℚ} {i : ℕ} {v : ℚ}
    (h : smaAt w closes i = some v) (hpos : ∀ c ∈ closes, 0 ≤ c) : 0 ≤ v := by
  unfold smaAt at h
  split at h
  · have hv := Option.some.inj h
    subst hv
    apply div_nonneg
    · apply List.sum_nonneg
      intro x hx
      exact hpos x (List.take_subset _ _ (List.drop_subset _ _ hx))
    · positivity
  · exact absurd h (by simp)

theorem spreadOf_nonneg (shortW longW : ℕ) (closes : List ℚ)
    (hpos : ∀ c ∈ closes, 0 ≤ c) : 0 ≤ spreadOf shortW longW closes := by
  unfold spreadOf
  cases hcs : smaAt shortW closes (closes.length - 1) with
  | none => simp
  | some s =>
    cases hcl : smaAt longW closes (closes.length - 1) with
    | none => simp
    | some l =>
      simp only []
      by_cases hl : l = 0
      · rw [if_pos hl]
      · rw [if_neg hl]
        have hl0 : 0 ≤ l := smaAt_nonneg hcl hpos
        exact div_nonneg (abs_nonneg _) hl0

/-- C5 (amended): when all closing prices are nonnegative, every signal
produced by `generate_signal` has confidence in `[0.5, 0.99]`; HOLD
confidence is exactly 0.5 and BUY/SELL confidence is
`min(0.99, round(0.5 + spread * 10, 2))` with the spread taken as 0
when the current long SMA is 0. -/
theorem C5_confidence_range (shortW longW : ℕ) (sym : String) (closes : List ℚ)
    (hlen : longW ≤ closes.length)
    (hpos : ∀ c ∈ closes, 0 ≤ c)
    (sig : StrategySignal)
    (hok : generate_signal shortW longW sym closes = .ok sig) :
    (1/2 ≤ sig.confidence ∧ sig.confidence ≤ 99/100) ∧
    (sig.signal = "HOLD" → sig.confidence = 1/2) ∧
    (sig.signal ≠ "HOLD" →
      sig.confidence =
        min (99/100) (pyRound (1/2 + spreadOf shortW longW closes * 10) 2)) := by
  obtain ⟨hhold, hnothold⟩ := confidence_formula shortW longW sym closes hlen sig hok
  refine ⟨?_, hhold, hnothold⟩
  by_cases hh : sig.signal = "HOLD"
  · rw [hhold hh]
    norm_num
  · rw [hnothold hh]
    constructor
    · have hsp : 0 ≤ spreadOf shortW longW closes := spreadOf_nonneg _ _ _ hpos
      have h1 : 1/2 ≤ pyRound (1/2 + spreadOf shortW longW closes * 10) 2 :=
        pyRound_half_le (by linarith)
      exact le_min (by norm_num) h1
    · exact min_le_left _ _

/-- C8: for non-HOLD signals, confidence is a monotonically
non-decreasing function of the relative spread, and never exceeds
0.99. -/
theorem C8_confidence_monotone
    (shortW1 longW1 : ℕ) (sym1 : String) (closes1 : List ℚ) (sig1 : StrategySignal)
    (shortW2 longW2 : ℕ) (sym2 : String) (closes2 : List ℚ) (sig2 : StrategySignal)
    (hlen1 : longW1 ≤ closes1.length)
    (hok1 : generate_signal shortW1 longW1 sym1 closes1 = .ok sig1)
    (hnh1 : sig1.signal ≠ "HOLD")
    (hlen2 : longW2 ≤ closes2.length)
    (hok2 : generate_signal shortW2 longW2 sym2 closes2 = .ok sig2)
    (hnh2 : sig2.signal ≠ "HOLD")
    (hsp : spreadOf shortW1 longW1 closes1 ≤ spreadOf shortW2 longW2 closes2) :
    sig1.confidence ≤ sig2.confidence ∧ sig2.confidence ≤ 99/100 := by
  have h1 := (confidence_formula shortW1 longW1 sym1 closes1 hlen1 sig1 hok1).2 hnh1
  have h2 := (confidence_formula shortW2 longW2 sym2 closes2 hlen2 sig2 hok2).2 hnh2
  rw [h1, h2]
  constructor
  · exact min_le_min (le_refl _) (pyRound_mono 2 (by linarith))
  · exact min_le_left _ _

/-- Assembling a concrete run of `generate_signal` from evaluated SMA
values, signal string and confidence. -/
theorem generate_signal_eval (shortW longW : ℕ) (sym : String) (closes : List ℚ)
    (ps pl cs cl : Option ℚ) (str : String) (conf : ℚ)
    (hlen : ¬ closes.length < longW)
    (hps : smaAt shortW closes (closes.length - 2) = ps)
    (hpl : smaAt longW closes (closes.length - 2) = pl)
    (hcs : smaAt shortW closes (closes.length - 1) = cs)
    (hcl : smaAt longW closes (closes.length - 1) = cl)
    (hstr : (if optLe ps pl && optGt cs cl then "BUY"
        else if optGe ps pl && optLt cs cl then "SELL" else "HOLD") = str)
    (hconf : (if str ≠ "HOLD"
        then min (99/100 : ℚ) (pyRound (1/2 + spreadOf shortW longW closes * 10) 2)
        else 1/2) = conf) :
    generate_signal shortW longW sym closes = .ok ⟨sym, str, conf⟩ := by
  unfold generate_signal
  rw [if_neg hlen]
  simp only []
  rw [hps, hpl, hcs, hcl, hstr, hconf]

theorem optLe_eval {a b : ℚ} (h : a ≤ b) : optLe (some a) (some b) = true := by
  show decide (a ≤ b) = true
  rw [decide_eq_true_eq]
  exact h

theorem optGe_eval {a b : ℚ} (h : b ≤ a) : optGe (some a) (some b) = true := by
  show decide (b ≤ a) = true
  rw [decide_eq_true_eq]
  exact h

theorem optGt_eval {a b : ℚ} (h : b < a) : optGt (some a) (some b) = true := by
  show decide (b < a) = true
  rw [decide_eq_true_eq]
  exact h

theorem optLt_eval {a b : ℚ} (h : a < b) : optLt (some a) (some b) = true := by
  show decide (a < b) = true
  rw [decide_eq_true_eq]
  exact h

/-! ### Concrete runs -/

theorem smaA_ps :
    smaAt 1 ([-1, -2, -1] : List ℚ) (([-1, -2, -1] : List ℚ).length - 2) = some (-2) := by
  unfold smaAt
  rw [if_pos (by decide)]
  norm_num

theorem smaA_pl :
    smaAt 2 ([-1, -2, -1] : List ℚ) (([-1, -2, -1] : List ℚ).length - 2) = some (-3/2) := by
  unfold smaAt
  rw [if_pos (by decide)]
  norm_num

theorem smaA_cs :
    smaAt 1 ([-1, -2, -1] : List ℚ) (([-1, -2, -1] : List ℚ).length - 1) = some (-1) := by
  unfold smaAt
  rw [if_pos (by decide)]
  norm_num

theorem smaA_cl :
    smaAt 2 ([-1, -2, -1] : List ℚ) (([-1, -2, -1] : List ℚ).length - 1) = some (-3/2) := by
  unfold smaAt
  rw [if_pos (by decide)]
  norm_num

theorem spread_A : spreadOf 1 2 ([-1, -2, -1] : List ℚ) = -1/3 := by
  unfold spreadOf
  rw [smaA_cs, smaA_cl]
  show (if ((-3/2 : ℚ) = 0) then (0 : ℚ) else |(-1 : ℚ) - (-3/2)| / (-3/2)) = -1/3
  rw [if_neg (by norm_num)]
  rw [show |(-1 : ℚ) - (-3/2)| = 1/2 by
    rw [show ((-1 : ℚ) - (-3/2)) = 1/2 by norm_num]
    exact abs_of_pos (by norm_num)]
  norm_num

theorem pyRound_A : pyRound (1/2 + (-1/3 : ℚ) * 10) 2 = -283/100 := by
  unfold pyRound
  rw [show ((1/2 + (-1/3 : ℚ) * 10) * 10 ^ 2) = -850/3 by norm_num]
  rw [rhe_eq_of_gt (show ⌊(-850/3 : ℚ)⌋ = -284 by
      rw [Int.floor_eq_iff]; norm_num) (by norm_num)]
  norm_num

/-- A full run on the history `[-1, -2, -1]` (short window 1, long
window 2): an upward cross with a negative current long SMA, so the
spread is negative and the confidence is −2.83. -/
theorem gs_eval_A :
    generate_signal 1 2 "X" [-1, -2, -1] = .ok ⟨"X", "BUY", -283/100⟩ := by
  apply generate_signal_eval 1 2 "X" [-1, -2, -1]
    (some (-2)) (some (-3/2)) (some (-1)) (some (-3/2)) "BUY" (-283/100)
    (by decide) smaA_ps smaA_pl smaA_cs smaA_cl
  · rw [optLe_eval (by norm_num), optGt_eval (by norm_num)]
    rfl
  · rw [if_pos (by decide), spread_A, pyRound_A]
    exact min_eq_right (by norm_num)

theorem smaB_ps :
    smaAt 1 ([1, 1, 2] : List ℚ) (([1, 1, 2] : List ℚ).length - 2) = some 1 := by
  unfold smaAt
  rw [if_pos (by decide)]
  norm_num

theorem smaB_pl :
    smaAt 2 ([1, 1, 2] : List ℚ) (([1, 1, 2] : List ℚ).length - 2) = some 1 := by
  unfold smaAt
  rw [if_pos (by decide)]
  norm_num

theorem smaB_cs :
    smaAt 1 ([1, 1, 2] : List ℚ) (([1, 1, 2] : List ℚ).length - 1) = some 2 := by
  unfold smaAt
  rw [if_pos (by decide)]
  norm_num

theorem smaB_cl :
    smaAt 2 ([1, 1, 2] : List ℚ) (([1, 1, 2] : List ℚ).length - 1) = some (3/2) := by
  unfold smaAt
  rw [if_pos (by decide)]
  norm_num

theorem spread_B : spreadOf 1 2 ([1, 1, 2] : List ℚ) = 1/3 := by
  unfold spreadOf
  rw [smaB_cs, smaB_cl]
  show (if ((3/2 : ℚ) = 0) then (0 : ℚ) else |(2 : ℚ) - 3/2| / (3/2)) = 1/3
  rw [if_neg (by norm_num)]
  rw [show |(2 : ℚ) - 3/2| = 1/2 by
    rw [show ((2 : ℚ) - 3/2) = 1/2 by norm_num]
    exact abs_of_pos (by norm_num)]
  norm_num

theorem pyRound_B : pyRound (1/2 + (1/3 : ℚ) * 10) 2 = 383/100 := by
  unfold pyRound
  rw [show ((1/2 + (1/3 : ℚ) * 10) * 10 ^ 2) = 1150/3 by norm_num]
  rw [rhe_eq_of_lt (show ⌊(1150/3 : ℚ)⌋ = 383 by
      rw [Int.floor_eq_iff]; norm_num) (by norm_num)]
  norm_num

/-- A full run on the history `[1, 1, 2]`: an upward cross with spread
1/3, whose rounded confidence 3.83 is capped at 0.99. -/
theorem gs_eval_B :
    generate_signal 1 2 "X" [1, 1, 2] = .ok ⟨"X", "BUY", 99/100⟩ := by
  apply generate_signal_eval 1 2 "X" [1, 1, 2]
    (some 1) (some 1) (some 2) (some (3/2)) "BUY" (99/100)
    (by decide) smaB_ps smaB_pl smaB_cs smaB_cl
  · rw [optLe_eval (by norm_num), optGt_eval (by norm_num)]
    rfl
  · rw [if_pos (by decide), spread_B, pyRound_B]
    exact min_eq_left (by norm_num)

theorem smaC_ps :
    smaAt 1 ([1, 1, 101/100] : List ℚ) (([1, 1, 101/100] : List ℚ).length - 2) = some 1 := by
  unfold smaAt
  rw [if_pos (by decide)]
  norm_num

theorem smaC_pl :
    smaAt 2 ([1, 1, 101/100] : List ℚ) (([1, 1, 101/100] : List ℚ).length - 2) = some 1 := by
  unfold smaAt
  rw [if_pos (by decide)]
  norm_num

theorem smaC_cs :
    smaAt 1 ([1, 1, 101/100] : List ℚ) (([1, 1, 101/100] : List ℚ).length - 1) =
      some (101/100) := by
  unfold smaAt
  rw [if_pos (by decide)]
  norm_num

theorem smaC_cl :
    smaAt 2 ([1, 1, 101/100] : List ℚ) (([1, 1, 101/100] : List ℚ).length - 1) =
      some (201/200) := by
  unfold smaAt
  rw [if_pos (by decide)]
  norm_num

theorem spread_C : spreadOf 1 2 ([1, 1, 101/100] : List ℚ) = 1/201 := by
  unfold spreadOf
  rw [smaC_cs, smaC_cl]
  show (if ((201/200 : ℚ) = 0) then (0 : ℚ)
    else |(101/100 : ℚ) - 201/200| / (201/200)) = 1/201
  rw [if_neg (by norm_num)]
  rw [show |(101/100 : ℚ) - 201/200| = 1/200 by
    rw [show ((101/100 : ℚ) - 201/200) = 1/200 by norm_num]
    exact abs_of_pos (by norm_num)]
  norm_num

theorem pyRound_C : pyRound (1/2 + (1/201 : ℚ) * 10) 2 = 11/20 := by
  unfold pyRound
  rw [show ((1/2 + (1/201 : ℚ) * 10) * 10 ^ 2) = 11050/201 by norm_num]
  rw [rhe_eq_of_gt (show ⌊(11050/201 : ℚ)⌋ = 54 by
      rw [Int.floor_eq_iff]; norm_num) (by norm_num)]
  norm_num

/-- A full run on the history `[1, 1, 101/100]`: an upward cross with
the small spread 1/201 and confidence 0.55. -/
theorem gs_eval_C :
    generate_signal 1 2 "X" [1, 1, 101/100] = .ok ⟨"X", "BUY", 11/20⟩ := by
  apply generate_signal_eval 1 2 "X" [1, 1, 101/100]
    (some 1) (some 1) (some (101/100)) (some (201/200)) "BUY" (11/20)
    (by decide) smaC_ps smaC_pl smaC_cs smaC_cl
  · rw [optLe_eval (by norm_num), optGt_eval (by norm_num)]
    rfl
  · rw [if_pos (by decide), spread_C, pyRound_C]
    exact min_eq_right (by norm_num)

/-! ### Counterexample and witnesses -/

/-- C5 counterexample: on the history `[-1, -2, -1]` (negative prices)
with windows 1 and 2, `generate_signal` produces a BUY whose confidence
is −2.83, outside `[0.5, 0.99]`: the unqualified range claim fails. -/
theorem C5_range_counterexample :
    generate_signal 1 2 "X" [-1, -2, -1] = .ok ⟨"X", "BUY", -283/100⟩ ∧
    ¬ (1/2 ≤ (-283/100 : ℚ) ∧ (-283/100 : ℚ) ≤ 99/100) :=
  ⟨gs_eval_A, by norm_num⟩

/-- Witness for C2 on the history `[1, 1, 2]`. -/
theorem C2_crossover_rule_witness :
    ((⟨"X", "BUY", 99/100⟩ : StrategySignal).signal = "BUY" ↔
      buyCond 1 2 [1, 1, 2] = true) ∧
    ((⟨"X", "BUY", 99/100⟩ : StrategySignal).signal = "SELL" ↔
      sellCond 1 2 [1, 1, 2] = true) ∧
    ((⟨"X", "BUY", 99/100⟩ : StrategySignal).signal = "HOLD" ↔
      (buyCond 1 2 [1, 1, 2] = false ∧ sellCond 1 2 [1, 1, 2] = false)) :=
  C2_crossover_rule 1 2 "X" [1, 1, 2] (by decide) (by decide) (by decide)
    ⟨"X", "BUY", 99/100⟩ gs_eval_B

/-- Witness for C4: a broker that always fails with "boom". -/
theorem C4_broker_failure_captured_witness :
    execute (fun _ _ _ => .error "boom") ⟨"X", "BUY", 1/2⟩
        ⟨true, "Approved", 5000, 1/50⟩ 100 =
      ⟨false, "boom", 50, none⟩ :=
  C4_broker_failure_captured (fun _ _ _ => .error "boom") ⟨"X", "BUY", 1/2⟩
    ⟨true, "Approved", 5000, 1/50⟩ 100 "boom" 50 rfl (Or.inl rfl) (by norm_num)
    pyRound_5000_100 (by norm_num) rfl

/-- Witness for the amended C5 on the nonnegative history `[1, 1, 2]`. -/
theorem C5_confidence_range_witness :
    ((1/2 ≤ (⟨"X", "BUY", 99/100⟩ : StrategySignal).confidence ∧
        (⟨"X", "BUY", 99/100⟩ : StrategySignal).confidence ≤ 99/100) ∧
      ((⟨"X", "BUY", 99/100⟩ : StrategySignal).signal = "HOLD" →
        (⟨"X", "BUY", 99/100⟩ : StrategySignal).confidence = 1/2) ∧
      ((⟨"X", "BUY", 99/100⟩ : StrategySignal).signal ≠ "HOLD" →
        (⟨"X", "BUY", 99/100⟩ : StrategySignal).confidence =
          min (99/100) (pyRound (1/2 + spreadOf 1 2 [1, 1, 2] * 10) 2))) :=
  C5_confidence_range 1 2 "X" [1, 1, 2] (by decide)
    (by intro c hc; fin_cases hc <;> norm_num)
    ⟨"X", "BUY", 99/100⟩ gs_eval_B

/-- Witness for C7: a one-bar history fails and aborts the cycle; a
two-bar history succeeds. -/
theorem C7_insufficient_data_witness :
    (generate_signal 1 2 "X" [5] = .error "Insufficient data for long SMA window") ∧
    (runCycle 1 2 ⟨1/20, 2, 1/50, 3/100⟩ (fun _ _ _ => .ok "1") "X" [5] 100000 0 0 =
      .error "Insufficient data for long SMA window") ∧
    (∃ sig, generate_signal 1 2 "Y" [5, 7] = .ok sig) := by
  refine ⟨?_, ?_, ?_⟩
  · exact (C7_insufficient_data 1 2 "X" [5] ⟨1/20, 2, 1/50, 3/100⟩
      (fun _ _ _ => .ok "1") 100000 0 0).1.mpr (by decide)
  · exact (C7_insufficient_data 1 2 "X" [5] ⟨1/20, 2, 1/50, 3/100⟩
      (fun _ _ _ => .ok "1") 100000 0 0).2.1 (by decide)
  · exact (C7_insufficient_data 1 2 "Y" [5, 7] ⟨1/20, 2, 1/50, 3/100⟩
      (fun _ _ _ => .ok "1") 100000 0 0).2.2 (by decide)

/-- Witness for C8: the run with spread 1/201 has confidence 0.55, the
run with spread 1/3 has confidence 0.99. -/
theorem C8_confidence_monotone_witness :
    (⟨"X", "BUY", 11/20⟩ : StrategySignal).confidence ≤
        (⟨"X", "BUY", 99/100⟩ : StrategySignal).confidence ∧
      (⟨"X", "BUY", 99/100⟩ : StrategySignal).confidence ≤ 99/100 :=
  C8_confidence_monotone 1 2 "X" [1, 1, 101/100] ⟨"X", "BUY", 11/20⟩
    1 2 "X" [1, 1, 2] ⟨"X", "BUY", 99/100⟩
    (by decide) gs_eval_C (by decide)
    (by decide) gs_eval_B (by decide)
    (by rw [spread_C, spread_B]; norm_num)

/-- Witness for C10 at the minimum history length. -/
theorem C10_min_history_holds_witness :
    generate_signal 1 2 "X" [1, 1] = .ok ⟨"X", "HOLD", 1/2⟩ :=
  C10_min_history_holds 1 2 "X" [1, 1] (by decide) (by decide) rfl

end Alpaca
